import Mathlib

/-!
# Verification of the Parity transaction execution engine (`ethcore/src/executive.rs`)

Shallow embedding of the transaction execution orchestrator: `transact`,
`call`, `create`, `exec_vm`, `enact_result`, `finalize` and
`contract_address`, together with the data model they manipulate
(world state with snapshot discipline, substates, action parameters,
gas accounting).

Modelling conventions:
* 256-bit machine words (`U256`) are modelled as `Nat`; the one place where
  width matters for the claims under study — the `U512 → U256` narrowing of
  the gas prepayment — is modelled explicitly by `u256narrow` (`% 2 ^ 256`).
  `U512` products of two `U256` values never overflow, so plain `Nat`
  multiplication is exact there.
* Addresses are modelled as `Nat`.
* The bytecode interpreter is an external collaborator; it is a parameter
  (`VM`) of the executive, acting on the account map and the unconfirmed
  substate, exactly the capability surface the externalities expose to it.
* The thread spawned by `exec_vm` past the depth threshold is joined
  synchronously before `exec_vm` returns, hence it is modelled as a plain
  synchronous invocation on the isolated path.
* The recording tracer variant is modelled; trace events carry the
  arguments the executive passes to the tracer.
-/

namespace Parity

/-- Narrowing conversion `U512 → U256`.
Modelled from the spec: the `util` crate's unsigned-integer conversions are
not under `src/`; the spec (§3) prescribes wide arithmetic narrowed back to
256-bit quantities, modelled as reduction modulo `2 ^ 256`. -/
def u256narrow (x : Nat) : Nat := x % 2 ^ 256

/-- One account of the world state.
Modelled from the spec: `ethcore/src/state.rs` / `account.rs` are not under
`src/`; the spec (§6, glossary) lists balance, nonce, code and storage. -/
structure Account where
  balance : Nat
  nonce : Nat
  code : Option (List Nat)
  storage : Nat → Nat

/-- The account with zero balance, zero nonce, no code, empty storage. -/
def Account.empty : Account := ⟨0, 0, none, fun _ => 0⟩

/-- World state: the account map plus the stack of snapshots.
Modelled from the spec: `ethcore/src/state.rs` is not under `src/`; the spec
(§6, §9) prescribes `snapshot` / `revert_snapshot` / `clear_snapshot` with
push / pop-and-restore / pop-and-keep semantics, nestable to arbitrary
depth. -/
structure WState where
  accounts : Nat → Account
  snapshots : List (Nat → Account)

/-- Balance accessor. -/
def WState.balance (s : WState) (a : Nat) : Nat := (s.accounts a).balance

/-- Nonce accessor. -/
def WState.nonce (s : WState) (a : Nat) : Nat := (s.accounts a).nonce

/-- Code accessor. -/
def WState.code (s : WState) (a : Nat) : Option (List Nat) := (s.accounts a).code

/-- Storage accessor. -/
def WState.storage_at (s : WState) (a k : Nat) : Nat := (s.accounts a).storage k

/-- Point update of the account map. -/
def setAccount (m : Nat → Account) (a : Nat) (acc : Account) : Nat → Account :=
  fun x => if x = a then acc else m x

/-- `State::add_balance`. Modelled from the spec (§6). -/
def WState.add_balance (s : WState) (a v : Nat) : WState :=
  { s with
    accounts := setAccount s.accounts a
       ({ s.accounts a with balance := (s.accounts a).balance + v }) }

/-- `State::sub_balance`. Modelled from the spec (§6). -/
def WState.sub_balance (s : WState) (a v : Nat) : WState :=
  { s with
    accounts := setAccount s.accounts a
       ({ s.accounts a with balance := (s.accounts a).balance - v }) }

/-- `State::transfer_balance`. Modelled from the spec (§6). -/
def WState.transfer_balance (s : WState) (src dst v : Nat) : WState :=
  (s.sub_balance src v).add_balance dst v

/-- `State::inc_nonce`. Modelled from the spec (§6). -/
def WState.inc_nonce (s : WState) (a : Nat) : WState :=
  { s with
    accounts := setAccount s.accounts a
       ({ s.accounts a with nonce := (s.accounts a).nonce + 1 }) }

/-- `State::new_contract`: initialize the account at `a` as a fresh contract
holding balance `bal`. Modelled from the spec (§4.3, §6). -/
def WState.new_contract (s : WState) (a bal : Nat) : WState :=
  { s with accounts := setAccount s.accounts a ⟨bal, 0, none, fun _ => 0⟩ }

/-- `State::kill_account`: remove the account from the world state.
Modelled from the spec (§4.6, §6). -/
def WState.kill_account (s : WState) (a : Nat) : WState :=
  { s with accounts := setAccount s.accounts a Account.empty }

/-- `State::snapshot`: push the current account map. Modelled from the spec
(§6, §9). -/
def WState.snapshot (s : WState) : WState := ⟨s.accounts, s.accounts :: s.snapshots⟩

/-- `State::revert_snapshot`: pop and restore. Modelled from the spec (§6, §9). -/
def WState.revert_snapshot (s : WState) : WState :=
  match s.snapshots with
  | [] => s
  | m :: rest => ⟨m, rest⟩

/-- `State::clear_snapshot`: pop and keep the mutations. Modelled from the
spec (§6, §9). -/
def WState.clear_snapshot (s : WState) : WState := ⟨s.accounts, s.snapshots.tail⟩

/-- A log entry (address, topics, data). Modelled from the spec (§3). -/
structure LogEntry where
  address : Nat
  topics : List Nat
  data : List Nat
deriving DecidableEq

/-- `Substate`: accumulator of a nested invocation's side effects.
Modelled from the spec: `ethcore/src/substate.rs` is not under `src/`; the
spec (§3) lists suicides, logs, created contracts and the storage-clear
counter. -/
structure Substate where
  suicides : List Nat
  logs : List LogEntry
  contracts_created : List Nat
  sstore_clears_count : Nat
deriving DecidableEq

/-- `Substate::new`. Modelled from the spec (§3). -/
def Substate.new : Substate := ⟨[], [], [], 0⟩

/-- `Substate::accrue`: merge an unconfirmed substate into this one.
Modelled from the spec (§4.5): accrue logs, suicides, creations and the
refund counters. -/
def Substate.accrue (s un : Substate) : Substate :=
  ⟨s.suicides ++ un.suicides, s.logs ++ un.logs,
   s.contracts_created ++ un.contracts_created,
   s.sstore_clears_count + un.sstore_clears_count⟩

/-- `evm::Error`. Modelled from the spec: `ethcore/src/evm/evm.rs` is not
under `src/`; the spec (§4.5, §7) lists exactly these variants. -/
inductive EvmError where
  | OutOfGas
  | BadJumpDestination
  | BadInstruction
  | StackUnderflow
  | OutOfStack
  | Internal
deriving DecidableEq

/-- `evm::Result`: gas left on success, or a VM error. -/
abbrev EvmResult := Except EvmError Nat

/-- `ExecutionError` (from `ethcore/src/types/executed.rs`, not under
`src/`). Modelled from the spec (§7): the validation-failure taxonomy plus
the hard `Internal` failure. -/
inductive ExecutionError where
  | TransactionMalformed
  | NotEnoughBaseGas (required got : Nat)
  | InvalidNonce (expected got : Nat)
  | BlockGasLimitReached (gas_limit gas_used gas : Nat)
  | NotEnoughCash (required got : Nat)
  | Internal
deriving DecidableEq

/-- The validation-phase error class of `ExecutionError` (§7). -/
def isValidationError : ExecutionError → Bool
  | .TransactionMalformed => true
  | .NotEnoughBaseGas _ _ => true
  | .InvalidNonce _ _ => true
  | .BlockGasLimitReached _ _ _ => true
  | .NotEnoughCash _ _ => true
  | .Internal => false

/-- `ActionValue` (`evm` module types, not under `src/`): `Transfer` moves
balance, `Apparent` does not. Modelled from the spec (§3). -/
inductive ActionValue where
  | Transfer (v : Nat)
  | Apparent (v : Nat)
deriving DecidableEq

/-- `ActionParams`: the immutable description of one call or creation.
Modelled from the spec (§3); the fields are exactly those `executive.rs`
constructs and reads. -/
structure ActionParams where
  code_address : Nat
  address : Nat
  sender : Nat
  origin : Nat
  gas : Nat
  gas_price : Nat
  value : ActionValue
  code : Option (List Nat)
  data : Option (List Nat)

/-- `EnvInfo`: block-level immutable context. Modelled from the spec (§3). -/
structure EnvInfo where
  author : Nat
  number : Nat
  timestamp : Nat
  gas_limit : Nat
  gas_used : Nat

/-- `Action` of a transaction: contract creation or a message call. -/
inductive Action where
  | Create
  | Call (addr : Nat)

/-- `SignedTransaction` (from `ethcore/src/transaction.rs`, not under
`src/`). Modelled from the spec (§4.1): sender recovery from the signature
is modelled by the `sender` field, `none` meaning recovery fails. -/
structure SignedTransaction where
  sender : Option Nat
  nonce : Nat
  gas : Nat
  gas_price : Nat
  value : Nat
  action : Action
  data : List Nat

/-- The consensus engine surface `executive.rs` consumes: the schedule's
refund constants, the intrinsic gas formula, and the builtin dispatcher.
Modelled from the spec (§6): these are external collaborators. -/
structure Engine where
  sstore_refund_gas : Nat
  suicide_refund_gas : Nat
  base_gas_required : SignedTransaction → Nat
  is_builtin : Nat → Bool
  cost_of_builtin : Nat → List Nat → Nat
  execute_builtin : Nat → List Nat → List Nat

/-- Trace events as recorded by the recording tracer, carrying the
arguments `executive.rs` passes at each `trace_*` call site. -/
inductive TraceEvent where
  | traceCall (gas_used : Nat) (output : Option (List Nat)) (depth : Nat)
      (subs : List TraceEvent) (delegate : Bool)
  | traceFailedCall (depth : Nat) (subs : List TraceEvent) (delegate : Bool)
  | traceCreate (gas_used : Nat) (output : Option (List Nat)) (address : Nat)
      (depth : Nat) (subs : List TraceEvent)
  | traceFailedCreate (depth : Nat) (subs : List TraceEvent)

/-- `OutputPolicy`: where the VM's output goes — back to the caller's
buffer, or installed as the created contract's code. -/
inductive OutputPolicy where
  | ret
  | initContract

/-- What one interpreter run produces: the gas result, the mutated account
map, the mutated unconfirmed substate, the output bytes, and the traces the
sub-tracer collected. -/
structure VMOut where
  result : EvmResult
  accounts : Nat → Account
  substate : Substate
  output : List Nat
  subTraces : List TraceEvent

/-- The Interpreter Factory collaborator (external per spec §6): executes
code against the account map and unconfirmed substate it is handed through
the externalities, at the given depth and output policy. -/
structure VM where
  exec : ActionParams → OutputPolicy → Nat → (Nat → Account) → Substate → VMOut

/-! ## Contract address derivation (`contract_address`, executive.rs:35) -/

/-- Big-endian bytes of `n`, `w` bytes wide (fixed width). -/
def beBytesFixed (w n : Nat) : List Nat :=
  (List.range w).map (fun i => n / 256 ^ (w - 1 - i) % 256)

/-- Minimal big-endian byte representation of `n` (empty for 0), for values
below `2 ^ 256`. -/
def beBytesMin (n : Nat) : List Nat := (beBytesFixed 32 n).dropWhile (· = 0)

/-- RLP encoding of a byte string.
Modelled from the spec: the `util` crate's `rlp` module is not under
`src/`; the spec (§4.3) prescribes the canonical RLP encoding. -/
def rlpEncodeBytes (b : List Nat) : List Nat :=
  if b.length = 1 ∧ b.headI < 0x80 then b
  else if b.length < 56 then (0x80 + b.length) :: b
  else (0xb7 + (beBytesMin b.length).length) :: (beBytesMin b.length ++ b)

/-- RLP encoding of a two-item list given the already-encoded items.
Modelled from the spec (§4.3). -/
def rlpList2 (item1 item2 : List Nat) : List Nat :=
  let payload := item1 ++ item2
  if payload.length < 56 then (0xc0 + payload.length) :: payload
  else (0xf7 + (beBytesMin payload.length).length) :: (beBytesMin payload.length ++ payload)

/-- `stream.append(address)`: an `Address` is RLP-encoded as its 20-byte
big-endian representation. Modelled from the spec (§4.3). -/
def rlpAddressItem (a : Nat) : List Nat := rlpEncodeBytes (beBytesFixed 20 a)

/-- `stream.append(nonce)`: a `U256` is RLP-encoded as its minimal
big-endian representation. Modelled from the spec (§4.3). -/
def rlpNonceItem (n : Nat) : List Nat := rlpEncodeBytes (beBytesMin n)

/-- `contract_address` (executive.rs:35-40): the hash of the RLP list
`(sender, nonce)`. The Keccak-256 hash itself lives in the `util` crate
(not under `src/`), so it is a parameter. -/
def contract_address (hash : List Nat → Nat) (address nonce : Nat) : Nat :=
  hash (rlpList2 (rlpAddressItem address) (rlpNonceItem nonce))

/-! ## The depth-threshold stack-isolation mechanism (`exec_vm`, executive.rs:181) -/

/-- `MAX_VM_DEPTH_FOR_THREAD` (executive.rs:32). -/
def MAX_VM_DEPTH_FOR_THREAD : Nat := 64

/-- The inline path of `exec_vm` (executive.rs:184-189): run the
interpreter on the current execution context. -/
def execVmInline (vm : VM) (depth : Nat) (params : ActionParams)
    (accounts : Nat → Account) (un : Substate) (policy : OutputPolicy) : VMOut :=
  vm.exec params policy depth accounts un

/-- The isolated-stack path of `exec_vm` (executive.rs:194-201): spawn the
interpreter on an auxiliary stack and join synchronously. The spawned scope
is joined before `exec_vm` returns (crossbeam `scope`/`join`), so it is
modelled as the same synchronous invocation. -/
def execVmIsolatedStack (vm : VM) (depth : Nat) (params : ActionParams)
    (accounts : Nat → Account) (un : Substate) (policy : OutputPolicy) : VMOut :=
  vm.exec params policy depth accounts un

/-- `Executive::exec_vm` (executive.rs:181-202): inline when
`(depth + 1) % MAX_VM_DEPTH_FOR_THREAD != 0`, otherwise on the isolated
auxiliary stack. -/
def exec_vm (vm : VM) (depth : Nat) (params : ActionParams)
    (accounts : Nat → Account) (un : Substate) (policy : OutputPolicy) : VMOut :=
  if (depth + 1) % MAX_VM_DEPTH_FOR_THREAD ≠ 0 then
    execVmInline vm depth params accounts un policy
  else
    execVmIsolatedStack vm depth params accounts un policy

/-! ## Result classification (`enact_result`, executive.rs:414) -/

/-- `Executive::enact_result` (executive.rs:414-428): revert the snapshot
for the out-of-gas class of errors; clear the snapshot and accrue the
unconfirmed substate for success or `Internal`. -/
def enact_result (result : EvmResult) (st : WState) (substate un : Substate) :
    WState × Substate :=
  match result with
  | .error .OutOfGas | .error .BadJumpDestination | .error .BadInstruction
  | .error .StackUnderflow | .error .OutOfStack =>
    (st.revert_snapshot, substate)
  | .ok _ | .error .Internal =>
    (st.clear_snapshot, substate.accrue un)

/-- The revert class of VM results named by the spec (§4.5): exactly
`OutOfGas`, `BadJumpDestination`, `BadInstruction`, `StackUnderflow`,
`OutOfStack`. -/
def isRevertError : EvmResult → Bool
  | .error .OutOfGas => true
  | .error .BadJumpDestination => true
  | .error .BadInstruction => true
  | .error .StackUnderflow => true
  | .error .OutOfStack => true
  | .ok _ => false
  | .error .Internal => false

/-! ## Message calls (`call`, executive.rs:208) -/

/-- What `call` produces: the VM result, the world state, the caller's
substate, the output bytes s, and the trace events recorded at this level. -/
structure CallOut where
  result : EvmResult
  state : WState
  substate : Substate
  output : List Nat
  events : List TraceEvent

/-- The state at entry of `call`'s body (executive.rs:211-216): snapshot
taken, then the value transferred to the destination when the action value
is `Transfer`. -/
def callEntryState (params : ActionParams) (st : WState) : WState :=
  let st1 := st.snapshot
  match params.value with
  | .Transfer v => st1.transfer_balance params.sender params.address v
  | .Apparent _ => st1

/-- `Executive::call` (executive.rs:208-305). -/
def call (eng : Engine) (vm : VM) (depth : Nat) (params : ActionParams)
    (st : WState) (substate : Substate) : CallOut :=
  -- snapshot, then transfer value to destination (executive.rs:211-216)
  let st2 := callEntryState params st
  let delegate : Bool := decide (params.code_address ≠ params.address)
  if eng.is_builtin params.code_address then
    -- destination is a builtin (executive.rs:221-262)
    let data := params.data.getD []
    let cost := eng.cost_of_builtin params.code_address data
    if cost ≤ params.gas then
      let output := eng.execute_builtin params.code_address data
      let st3 := st2.clear_snapshot
      -- trace only top level calls to builtins (executive.rs:236-250)
      let events := if depth = 0 then
          [TraceEvent.traceCall cost (some output) depth [] delegate]
        else []
      ⟨.ok (params.gas - cost), st3, substate, output, events⟩
    else
      ⟨.error .OutOfGas, st2.revert_snapshot, substate, [],
       [TraceEvent.traceFailedCall depth [] delegate]⟩
  else
    match params.code with
    | some _ =>
      -- code present: run the VM on a fresh unconfirmed substate
      -- (executive.rs:269-296)
      let v := exec_vm vm depth params st2.accounts Substate.new .ret
      let events := match v.result with
        | .ok gas_left =>
          [TraceEvent.traceCall (params.gas - gas_left) (some v.output) depth
            v.subTraces delegate]
        | .error _ => [TraceEvent.traceFailedCall depth v.subTraces delegate]
      let st3 : WState := ⟨v.accounts, st2.snapshots⟩
      let enacted := enact_result v.result st3 substate v.substate
      ⟨v.result, enacted.1, enacted.2, v.output, events⟩
    | none =>
      -- no code: plain value transfer, confirm immediately
      -- (executive.rs:297-303)
      ⟨.ok params.gas, st2.clear_snapshot, substate, [],
       [TraceEvent.traceCall 0 (some []) depth [] delegate]⟩

/-! ## Contract creation (`create`, executive.rs:310) -/

/-- What `create` produces. -/
structure CreateOut where
  result : EvmResult
  state : WState
  substate : Substate
  events : List TraceEvent

/-- The state at entry of `create`'s body (executive.rs:313-325): snapshot
taken, the pre-existing balance read, the value moved out of the sender and
the destination initialized as a contract holding transferred plus
pre-existing balance. -/
def createEntryState (params : ActionParams) (st : WState) : WState :=
  let st1 := st.snapshot
  let prev_bal := st1.balance params.address
  match params.value with
  | .Transfer v =>
    (st1.sub_balance params.sender v).new_contract params.address (v + prev_bal)
  | .Apparent _ => st1.new_contract params.address prev_bal

/-- `Executive::create` (executive.rs:310-351). -/
def create (_eng : Engine) (vm : VM) (depth : Nat) (params : ActionParams)
    (st : WState) (substate : Substate) : CreateOut :=
  let st2 := createEntryState params st
  let v := exec_vm vm depth params st2.accounts Substate.new .initContract
  let events := match v.result with
    | .ok gas_left =>
      [TraceEvent.traceCreate (params.gas - gas_left) (some v.output)
        params.address depth v.subTraces]
    | .error _ => [TraceEvent.traceFailedCreate depth v.subTraces]
  let st3 : WState := ⟨v.accounts, st2.snapshots⟩
  let enacted := enact_result v.result st3 substate v.substate
  ⟨v.result, enacted.1, enacted.2, events⟩

/-! ## Finalization (`finalize`, executive.rs:354) -/

/-- `Executed` (from `ethcore/src/types/executed.rs`, not under `src/`).
Modelled from the spec (§3). -/
structure Executed where
  gas : Nat
  gas_used : Nat
  refunded : Nat
  cumulative_gas_used : Nat
  logs : List LogEntry
  contracts_created : List Nat
  output : List Nat
  trace : Option TraceEvent

/-- `refunds_bound` (executive.rs:358-361): SSTORE-clear refunds plus
suicide refunds. -/
def refundsBound (eng : Engine) (substate : Substate) : Nat :=
  eng.sstore_refund_gas * substate.sstore_clears_count +
    eng.suicide_refund_gas * substate.suicides.length

/-- `gas_left_prerefund` (executive.rs:364): the gas remaining from the
top-level outcome, zero on any error. -/
def gasLeftPrerefund (result : EvmResult) : Nat :=
  match result with
  | .ok x => x
  | .error _ => 0

/-- `refunded` (executive.rs:365): the refund bound capped at half the gas
consumed before the refund. -/
def refundedAmount (eng : Engine) (substate : Substate) (txGas : Nat)
    (result : EvmResult) : Nat :=
  min (refundsBound eng substate) ((txGas - gasLeftPrerefund result) / 2)

/-- `Executive::finalize` (executive.rs:354-412). Returns the mutated world
state together with the outcome; the balance credits and the suicides are
applied before the outcome is inspected, exactly as in the source. -/
def finalize (eng : Engine) (info : EnvInfo) (t : SignedTransaction)
    (sender : Nat) (st : WState) (substate : Substate) (result : EvmResult)
    (output : List Nat) (trace : Option TraceEvent) :
    WState × Except ExecutionError Executed :=
  let refunded := refundedAmount eng substate t.gas result
  let gas_left := gasLeftPrerefund result + refunded
  let gas_used := t.gas - gas_left
  let refund_value := gas_left * t.gas_price
  let fees_value := gas_used * t.gas_price
  let st1 := st.add_balance sender refund_value
  let st2 := st1.add_balance info.author fees_value
  let st3 := substate.suicides.foldl (fun s a => s.kill_account a) st2
  match result with
  | .error .Internal => (st3, .error .Internal)
  | .error _ =>
    (st3, .ok { gas := t.gas, gas_used := t.gas, refunded := 0,
                cumulative_gas_used := info.gas_used + t.gas, logs := [],
                contracts_created := [], output := output, trace := trace })
  | .ok _ =>
    (st3, .ok { gas := t.gas, gas_used := gas_used, refunded := refunded,
                cumulative_gas_used := info.gas_used + gas_used,
                logs := substate.logs,
                contracts_created := substate.contracts_created,
                output := output, trace := trace })

/-! ## Transaction execution (`transact`, executive.rs:88/97) -/

/-- `gas_cost` in `transact` (executive.rs:129): the `U512` product of two
`U256` quantities, exact as a natural number. -/
def gasCost512 (t : SignedTransaction) : Nat := t.gas * t.gas_price

/-- The irrevocable prepayment step of `transact` (executive.rs:138-139):
increment the sender's nonce and debit the gas cost, narrowed back to a
`U256`. -/
def prepayState (st : WState) (sender gas_cost : Nat) : WState :=
  (st.inc_nonce sender).sub_balance sender (u256narrow gas_cost)

/-- `Executive::transact` / `transact_with_tracer` (executive.rs:88-179),
with the recording tracer. Returns the world state alongside the outcome:
mutations performed before a hard `Internal` failure persist, while the
validation-phase rejections leave the state untouched. -/
def transact (hash : List Nat → Nat) (eng : Engine) (vm : VM) (info : EnvInfo)
    (st : WState) (t : SignedTransaction) (check_nonce : Bool) :
    WState × Except ExecutionError Executed :=
  match t.sender with
  | none => (st, .error .TransactionMalformed)
  | some sender =>
    let nonce := st.nonce sender
    let base_gas_required := eng.base_gas_required t
    if t.gas < base_gas_required then
      (st, .error (.NotEnoughBaseGas base_gas_required t.gas))
    else
      let init_gas := t.gas - base_gas_required
      if check_nonce ∧ t.nonce ≠ nonce then
        (st, .error (.InvalidNonce nonce t.nonce))
      else if info.gas_used + t.gas > info.gas_limit then
        (st, .error (.BlockGasLimitReached info.gas_limit info.gas_used t.gas))
      else
        let balance := st.balance sender
        let gas_cost := gasCost512 t
        let total_cost := t.value + gas_cost
        if balance < total_cost then
          (st, .error (.NotEnoughCash total_cost balance))
        else
          -- no invalid transactions from this point (executive.rs:137-139)
          let st2 := prepayState st sender gas_cost
          let substate := Substate.new
          match t.action with
          | .Create =>
            let new_address := contract_address hash sender nonce
            let params : ActionParams :=
              { code_address := new_address, address := new_address,
                sender := sender, origin := sender, gas := init_gas,
                gas_price := t.gas_price, value := .Transfer t.value,
                code := some t.data, data := none }
            let c := create eng vm 0 params st2 substate
            finalize eng info t sender c.state c.substate c.result []
              c.events.getLast?
          | .Call addr =>
            let params : ActionParams :=
              { code_address := addr, address := addr, sender := sender,
                origin := sender, gas := init_gas, gas_price := t.gas_price,
                value := .Transfer t.value, code := st2.code addr,
                data := some t.data }
            let c := call eng vm 0 params st2 substate
            finalize eng info t sender c.state c.substate c.result c.output
              c.events.getLast?

/-! ## Concrete instances used by counterexamples and witnesses -/

/-- A fixed hash function for concrete runs. -/
def hash0 : List Nat → Nat := fun _ => 42

/-- A concrete engine: homestead refund constants, zero intrinsic gas, no
builtins. -/
def eng0 : Engine :=
  { sstore_refund_gas := 15000, suicide_refund_gas := 24000,
    base_gas_required := fun _ => 0, is_builtin := fun _ => false,
    cost_of_builtin := fun _ _ => 0, execute_builtin := fun _ _ => [] }

/-- A concrete block environment. -/
def info0 : EnvInfo := ⟨7, 0, 0, 1000000, 0⟩

/-- The empty world state. -/
def st0 : WState := ⟨fun _ => Account.empty, []⟩

/-- A VM that returns successfully with 10 gas left and no effects. -/
def vmOk10 : VM := ⟨fun _ _ _ a s => ⟨.ok 10, a, s, [], []⟩⟩

/-- A VM that fails with `OutOfGas`, after smashing the destination's
balance and storage (effects the snapshot must roll back). -/
def vmSmash : VM :=
  ⟨fun p _ _ a s => ⟨.error .OutOfGas, setAccount a p.address ⟨999, 0, none, fun _ => 5⟩, s, [], []⟩⟩

/-- A concrete creation transaction: within gas and balance bounds. -/
def t0 : SignedTransaction :=
  { sender := some 1, nonce := 0, gas := 100, gas_price := 0, value := 0,
    action := .Create, data := [] }

/-! ## Claim theorems -/

/-- Claim C1, counterexample: running `transact` with a VM whose top-level
execution succeeds with 10 gas left (`gas_left_prerefund > 0`) on a
100-gas transaction yields an `Executed` record with `gas_used = 90` and
`refunded = 0`, so `gas_used + refunded ≠ gas` — the conservation equation
of the claim fails in exactly the leftover-gas case it includes. -/
theorem conservation_counterexample :
    (transact hash0 eng0 vmOk10 info0 st0 t0 false).2.map
        (fun e => (e.gas, e.gas_used, e.refunded)) = .ok (100, 90, 0) ∧
    (90 : Nat) + 0 ≠ 100 := ⟨rfl, by decide⟩

/-- Claim C1 (amended): for every outcome `finalize` accepts (and `transact`
returns its result unchanged), the `Executed` record satisfies
`gas_used + refunded + gas_left_prerefund = gas`; the claim's equation
`gas_used + refunded = gas` holds exactly when the top-level execution left
no gas, i.e. on every error outcome and on successes that consumed all
offered gas. -/
theorem gas_conservation_amended (eng : Engine) (info : EnvInfo)
    (t : SignedTransaction) (sender : Nat) (st : WState) (substate : Substate)
    (result : EvmResult) (output : List Nat) (trace : Option TraceEvent)
    (hgl : gasLeftPrerefund result ≤ t.gas) :
    ∀ e, (finalize eng info t sender st substate result output trace).2 = .ok e →
      e.gas_used + e.refunded + gasLeftPrerefund result = t.gas := by
  intro e he
  cases result with
  | ok x =>
    simp only [finalize] at he
    injection he with he
    subst he
    have hr : refundedAmount eng substate t.gas (.ok x) ≤ (t.gas - x) / 2 :=
      Nat.min_le_right _ _
    simp only [gasLeftPrerefund] at hgl ⊢
    omega
  | error err =>
    cases err
    case Internal =>
      simp only [finalize] at he
      exact Except.noConfusion he
    all_goals
      simp only [finalize] at he
      injection he with he
      subst he
      simp [gasLeftPrerefund]

/-- The `Executed` record `finalize` produces at the concrete leftover-gas
instance. -/
def exC1 : Executed := ⟨100, 90, 0, 90, [], [], [], none⟩

/-- Claim C1 witness for the amended theorem: at the concrete leftover-gas
instance, `gas_used + refunded + gas_left_prerefund = 90 + 0 + 10 = 100`. -/
theorem gas_conservation_amended_witness :
    exC1.gas_used + exC1.refunded + gasLeftPrerefund (Except.ok 10) = 100 :=
  gas_conservation_amended eng0 info0 t0 1 st0 Substate.new (Except.ok 10)
    [] none (by decide) exC1 rfl

/-- Claim C2: `enact_result` reverts the world-state snapshot and discards
the unconfirmed substate (leaving the parent substate unchanged) exactly
for the errors `OutOfGas`, `BadJumpDestination`, `BadInstruction`,
`StackUnderflow`, `OutOfStack`; for a success or an `Internal` error it
clears the snapshot and accrues the unconfirmed substate into the parent. -/
theorem enact_result_classification (result : EvmResult) (st : WState)
    (substate un : Substate) :
    enact_result result st substate un =
      if isRevertError result then (st.revert_snapshot, substate)
      else (st.clear_snapshot, substate.accrue un) := by
  cases result with
  | ok x => rfl
  | error e => cases e <;> rfl

/-- Helper: `finalize` can fail only with the `Internal` execution error
(executive.rs:385-386). -/
theorem finalize_error_only_internal (eng : Engine) (info : EnvInfo)
    (t : SignedTransaction) (sender : Nat) (st : WState) (substate : Substate)
    (result : EvmResult) (output : List Nat) (trace : Option TraceEvent) :
    ∀ e, (finalize eng info t sender st substate result output trace).2 = .error e →
      e = .Internal := by
  intro e he
  cases result with
  | ok x =>
    simp only [finalize] at he
    exact Except.noConfusion he
  | error err =>
    cases err <;> simp only [finalize] at he
    all_goals
      first
      | exact Except.noConfusion he
      | (injection he with he; exact he.symm)

/-- Claim C3: `transact` returns each validation error exactly under its
stated condition, in the order: sender recovery failure, insufficient
intrinsic gas, nonce mismatch (only when nonce checking is requested),
block gas limit overflow, insufficient balance — and whenever one of these
validation errors is returned the world state is returned untouched.
Past all five gates, no validation error can be produced any more: the only
possible failure is the `Internal` hard failure. -/
theorem transact_validation_errors (hash : List Nat → Nat) (eng : Engine)
    (vm : VM) (info : EnvInfo) (st : WState) (t : SignedTransaction)
    (check_nonce : Bool) :
    (t.sender = none →
      transact hash eng vm info st t check_nonce =
        (st, .error .TransactionMalformed)) ∧
    (∀ s, t.sender = some s → t.gas < eng.base_gas_required t →
      transact hash eng vm info st t check_nonce =
        (st, .error (.NotEnoughBaseGas (eng.base_gas_required t) t.gas))) ∧
    (∀ s, t.sender = some s → ¬ t.gas < eng.base_gas_required t →
      check_nonce = true → t.nonce ≠ st.nonce s →
      transact hash eng vm info st t check_nonce =
        (st, .error (.InvalidNonce (st.nonce s) t.nonce))) ∧
    (∀ s, t.sender = some s → ¬ t.gas < eng.base_gas_required t →
      ¬ (check_nonce = true ∧ t.nonce ≠ st.nonce s) →
      info.gas_used + t.gas > info.gas_limit →
      transact hash eng vm info st t check_nonce =
        (st, .error (.BlockGasLimitReached info.gas_limit info.gas_used t.gas))) ∧
    (∀ s, t.sender = some s → ¬ t.gas < eng.base_gas_required t →
      ¬ (check_nonce = true ∧ t.nonce ≠ st.nonce s) →
      ¬ info.gas_used + t.gas > info.gas_limit →
      st.balance s < t.value + gasCost512 t →
      transact hash eng vm info st t check_nonce =
        (st, .error (.NotEnoughCash (t.value + gasCost512 t) (st.balance s)))) ∧
    (∀ s e, t.sender = some s → ¬ t.gas < eng.base_gas_required t →
      ¬ (check_nonce = true ∧ t.nonce ≠ st.nonce s) →
      ¬ info.gas_used + t.gas > info.gas_limit →
      ¬ st.balance s < t.value + gasCost512 t →
      (transact hash eng vm info st t check_nonce).2 = .error e →
      isValidationError e = false) := by
  refine ⟨?_, ?_, ?_, ?_, ?_, ?_⟩
  · intro h
    simp only [transact, h]
  · intro s hs hlt
    simp only [transact, hs, if_pos hlt]
  · intro s hs hge hck hne
    simp only [transact, hs, if_neg hge]
    rw [if_pos ⟨hck, hne⟩]
  · intro s hs hge hnonce hlimit
    simp only [transact, hs, if_neg hge]
    rw [if_neg hnonce, if_pos hlimit]
  · intro s hs hge hnonce hlimit hcash
    simp only [transact, hs, if_neg hge]
    rw [if_neg hnonce, if_neg hlimit, if_pos hcash]
  · intro s e hs hge hnonce hlimit hcash he
    simp only [transact, hs, if_neg hge] at he
    rw [if_neg hnonce, if_neg hlimit, if_neg hcash] at he
    rcases ha : t.action with _ | addr
    all_goals rw [ha] at he
    all_goals have h2 := finalize_error_only_internal eng info t s _ _ _ _ _ e he
    all_goals rw [h2]
    all_goals rfl

/-- The world state of the claim C3 witness: the sender (address 1) holds
balance 100017, one wei less than the 100018 the transaction requires. -/
def stC3 : WState :=
  ⟨setAccount (fun _ => Account.empty) 1 ⟨100017, 0, none, fun _ => 0⟩, []⟩

/-- The transaction of the claim C3 witness: value 18 at gas 100000 and
price 1, so it requires 100018 in total. -/
def tC3 : SignedTransaction :=
  { sender := some 1, nonce := 0, gas := 100000, gas_price := 1, value := 18,
    action := .Create, data := [] }

/-- Claim C3 witness: the reference scenario — balance 100017 against a
required 100018 yields exactly `NotEnoughCash{required: 100018, got:
100017}` and the returned state is the input state. -/
theorem transact_validation_errors_witness :
    transact hash0 eng0 vmOk10 info0 stC3 tC3 true =
      (stC3, .error (.NotEnoughCash 100018 100017)) :=
  (transact_validation_errors hash0 eng0 vmOk10 info0 stC3 tC3 true).2.2.2.2.1 1
    rfl (by decide) (by decide) (by decide) (by decide)

/-- Claim C4: a top-level `Internal` VM error makes `finalize` — and with
it the whole `transact`, which returns `finalize`'s outcome unchanged —
fail with `ExecutionError.Internal`; any other top-level VM error still
succeeds, with `gas_used = t.gas`, `refunded = 0` and empty logs and
created-contract lists. -/
theorem finalize_error_outcomes (eng : Engine) (info : EnvInfo)
    (t : SignedTransaction) (sender : Nat) (st : WState) (substate : Substate)
    (output : List Nat) (trace : Option TraceEvent) :
    ((finalize eng info t sender st substate (.error .Internal) output trace).2 =
      .error .Internal) ∧
    (∀ err : EvmError, err ≠ .Internal →
      (finalize eng info t sender st substate (.error err) output trace).2 =
        .ok { gas := t.gas, gas_used := t.gas, refunded := 0,
              cumulative_gas_used := info.gas_used + t.gas, logs := [],
              contracts_created := [], output := output, trace := trace }) := by
  refine ⟨rfl, ?_⟩
  intro err hne
  cases err
  case Internal => exact absurd rfl hne
  all_goals rfl

/-- Claim C4 witness: at a concrete `OutOfGas` top-level result, `finalize`
succeeds with all gas consumed, nothing refunded and no effects. -/
theorem finalize_error_outcomes_witness :
    (finalize eng0 info0 t0 1 st0 Substate.new (.error .OutOfGas) [] none).2 =
      .ok { gas := t0.gas, gas_used := t0.gas, refunded := 0,
            cumulative_gas_used := info0.gas_used + t0.gas, logs := [],
            contracts_created := [], output := [], trace := none } :=
  (finalize_error_outcomes eng0 info0 t0 1 st0 Substate.new [] none).2
    .OutOfGas (by decide)

/-- Claim C5: the refund equals
`min(sstore_refund_gas * storage_clear_count + suicide_refund_gas *
number_of_suicides, (tx_gas - gas_left_prerefund) / 2)`, where
`gas_left_prerefund` is the top-level result's remaining gas and zero on
any error; in particular it never exceeds half of the gas consumed before
the refund, and the `Executed` record of a successful top-level outcome
reports exactly this amount. -/
theorem finalize_refund_formula (eng : Engine) (info : EnvInfo)
    (t : SignedTransaction) (sender : Nat) (st : WState) (substate : Substate)
    (result : EvmResult) (output : List Nat) (trace : Option TraceEvent) :
    (refundedAmount eng substate t.gas result =
      min (eng.sstore_refund_gas * substate.sstore_clears_count +
             eng.suicide_refund_gas * substate.suicides.length)
          ((t.gas - gasLeftPrerefund result) / 2)) ∧
    (refundedAmount eng substate t.gas result ≤
      (t.gas - gasLeftPrerefund result) / 2) ∧
    (∀ err, result = .error err → gasLeftPrerefund result = 0) ∧
    (∀ gas_left, result = .ok gas_left →
      ∀ e, (finalize eng info t sender st substate result output trace).2 = .ok e →
        e.refunded = refundedAmount eng substate t.gas result) := by
  refine ⟨rfl, Nat.min_le_right _ _, ?_, ?_⟩
  · intro err h
    subst h
    rfl
  · intro gas_left h e he
    subst h
    simp only [finalize] at he
    injection he with he
    subst he
    rfl

/-- The substate of the claim C5 witness: one suicide and three storage
clears, so the refund bound `3 * 15000 + 1 * 24000 = 69000` exceeds the cap
`(100 - 10) / 2 = 45`. -/
def subC5 : Substate := ⟨[5], [], [], 3⟩

/-- The `Executed` record `finalize` produces at the claim C5 witness
instance: the refund is capped at 45. -/
def exC5 : Executed := ⟨100, 45, 45, 45, [], [], [], none⟩

/-- Claim C5 witness: at the concrete instance the reported refund is
`min(69000, 45) = 45`. -/
theorem finalize_refund_formula_witness :
    exC5.refunded = refundedAmount eng0 subC5 100 (.ok 10) :=
  (finalize_refund_formula eng0 info0 t0 1 st0 subC5 (.ok 10) [] none).2.2.2
    10 rfl exC5 rfl

/-- Claim C6: `exec_vm` takes the inline path exactly when
`(depth + 1) % MAX_VM_DEPTH_FOR_THREAD ≠ 0` and the isolated-stack path
otherwise; the two paths are the same synchronous interpreter invocation
(the spawned scope is joined before `exec_vm` returns), so for identical
parameters, substate, output policy and account map the result — gas, state
mutations, substate, output and traces — is identical whichever path runs,
and `exec_vm`'s outcome never depends on the branch taken. -/
theorem exec_vm_depth_transparent (vm : VM) (depth : Nat)
    (params : ActionParams) (accounts : Nat → Account) (un : Substate)
    (policy : OutputPolicy) :
    (exec_vm vm depth params accounts un policy =
      if (depth + 1) % MAX_VM_DEPTH_FOR_THREAD ≠ 0 then
        execVmInline vm depth params accounts un policy
      else execVmIsolatedStack vm depth params accounts un policy) ∧
    (execVmInline vm depth params accounts un policy =
      execVmIsolatedStack vm depth params accounts un policy) ∧
    (exec_vm vm depth params accounts un policy =
      vm.exec params policy depth accounts un) := by
  refine ⟨rfl, rfl, ?_⟩
  unfold exec_vm execVmInline execVmIsolatedStack
  split <;> rfl

/-- Helper: the `enact_result` dispatch as a single conditional on the
revert class. -/
theorem enact_result_ite (result : EvmResult) (st : WState)
    (substate un : Substate) :
    enact_result result st substate un =
      if isRevertError result then (st.revert_snapshot, substate)
      else (st.clear_snapshot, substate.accrue un) := by
  cases result with
  | ok x => rfl
  | error e => cases e <;> rfl

/-- Helper: the snapshot stack after `call`'s entry sequence is the
original account map pushed onto the original stack — the value transfer
touches only the account map. -/
theorem callEntryState_snapshots (params : ActionParams) (st : WState) :
    (callEntryState params st).snapshots = st.accounts :: st.snapshots := by
  unfold callEntryState
  cases params.value <;> rfl

/-- Helper: the snapshot stack after `create`'s entry sequence is the
original account map pushed onto the original stack. -/
theorem createEntryState_snapshots (params : ActionParams) (st : WState) :
    (createEntryState params st).snapshots = st.accounts :: st.snapshots := by
  unfold createEntryState
  cases params.value <;> rfl

/-- A concrete builtin engine for the claim C7 witness: address 9 is a
builtin, its cost is input length plus 2, and it prepends a zero byte. -/
def engB : Engine :=
  { sstore_refund_gas := 15000, suicide_refund_gas := 24000,
    base_gas_required := fun _ => 0, is_builtin := fun a => a == 9,
    cost_of_builtin := fun _ d => d.length + 2,
    execute_builtin := fun _ d => 0 :: d }

/-- Call parameters of the claim C7 witness: a builtin call to address 9
with one byte of input and 50 gas offered. -/
def paramsB : ActionParams :=
  { code_address := 9, address := 9, sender := 1, origin := 1, gas := 50,
    gas_price := 0, value := .Transfer 3, code := none, data := some [7] }

/-- Claim C7: when the destination of `call` is a builtin, an affordable
fixed cost means the builtin executes, the snapshot is cleared and the
call returns `Ok(gas - cost)` — recording a call trace exactly when
`depth = 0`; an unaffordable cost means the snapshot is reverted and the
call fails with `OutOfGas`. -/
theorem builtin_call_semantics (eng : Engine) (vm : VM) (depth : Nat)
    (params : ActionParams) (st : WState) (substate : Substate)
    (hb : eng.is_builtin params.code_address = true) :
    (eng.cost_of_builtin params.code_address (params.data.getD []) ≤ params.gas →
      call eng vm depth params st substate =
        ⟨.ok (params.gas - eng.cost_of_builtin params.code_address (params.data.getD [])),
         (callEntryState params st).clear_snapshot, substate,
         eng.execute_builtin params.code_address (params.data.getD []),
         if depth = 0 then
           [TraceEvent.traceCall
             (eng.cost_of_builtin params.code_address (params.data.getD []))
             (some (eng.execute_builtin params.code_address (params.data.getD [])))
             depth [] (decide (params.code_address ≠ params.address))]
         else []⟩) ∧
    (¬ eng.cost_of_builtin params.code_address (params.data.getD []) ≤ params.gas →
      call eng vm depth params st substate =
        ⟨.error .OutOfGas, (callEntryState params st).revert_snapshot, substate,
         [], [TraceEvent.traceFailedCall depth []
               (decide (params.code_address ≠ params.address))]⟩) ∧
    (eng.cost_of_builtin params.code_address (params.data.getD []) ≤ params.gas →
      ((call eng vm depth params st substate).events ≠ [] ↔ depth = 0)) := by
  refine ⟨?_, ?_, ?_⟩
  · intro hc
    unfold call
    rw [hb]
    simp only [if_true]
    rw [if_pos hc]
  · intro hc
    unfold call
    rw [hb]
    simp only [if_true]
    rw [if_neg hc]
  · intro hc
    unfold call
    rw [hb]
    simp only [if_true]
    rw [if_pos hc]
    by_cases hd : depth = 0
    · simp [hd]
    · simp [hd]

/-- Claim C7 witness: at depth 0, the concrete builtin call with input
`[7]` (cost 3 of 50 gas offered) executes, clears the snapshot, returns
`Ok(47)` and records a call trace. -/
theorem builtin_call_semantics_witness :
    call engB vmOk10 0 paramsB st0 Substate.new =
      ⟨.ok (paramsB.gas - engB.cost_of_builtin paramsB.code_address (paramsB.data.getD [])),
       (callEntryState paramsB st0).clear_snapshot, Substate.new,
       engB.execute_builtin paramsB.code_address (paramsB.data.getD []),
       if (0 : Nat) = 0 then
         [TraceEvent.traceCall
           (engB.cost_of_builtin paramsB.code_address (paramsB.data.getD []))
           (some (engB.execute_builtin paramsB.code_address (paramsB.data.getD [])))
           0 [] (decide (paramsB.code_address ≠ paramsB.address))]
       else []⟩ :=
  (builtin_call_semantics engB vmOk10 0 paramsB st0 Substate.new rfl).1
    (by decide)

/-- Call/create parameters of the claim C8 witness: a plain contract call
transferring value 5 to address 2 whose code the failing VM executes. -/
def paramsR : ActionParams :=
  { code_address := 2, address := 2, sender := 1, origin := 1, gas := 50,
    gas_price := 0, value := .Transfer 5, code := some [0], data := none }

/-- Claim C8: in both `call` and `create` the snapshot is taken and the
value transfer applied before the interpreter runs — the VM executes
against the entry state's account map — and if the result is classified as
a reverting error the whole invocation, value transfer included, is rolled
back: the resulting world state is the original one, so in particular the
destination's balance and storage are unchanged. -/
theorem value_transfer_atomicity (eng : Engine) (vm : VM) (depth : Nat)
    (params : ActionParams) (st : WState) (substate : Substate) :
    (eng.is_builtin params.code_address = false → params.code.isSome = true →
      (call eng vm depth params st substate).result =
        (exec_vm vm depth params (callEntryState params st).accounts
          Substate.new .ret).result) ∧
    (eng.is_builtin params.code_address = false → params.code.isSome = true →
      isRevertError (call eng vm depth params st substate).result = true →
      (call eng vm depth params st substate).state = st) ∧
    ((create eng vm depth params st substate).result =
      (exec_vm vm depth params (createEntryState params st).accounts
        Substate.new .initContract).result) ∧
    (isRevertError (create eng vm depth params st substate).result = true →
      (create eng vm depth params st substate).state = st) ∧
    (eng.is_builtin params.code_address = false → params.code.isSome = true →
      isRevertError (call eng vm depth params st substate).result = true →
      ∀ a, (call eng vm depth params st substate).state.balance a = st.balance a ∧
        ∀ k, (call eng vm depth params st substate).state.storage_at a k =
          st.storage_at a k) := by
  refine ⟨?_, ?_, ?_, ?_, ?_⟩
  · intro hb hc
    obtain ⟨c, hcode⟩ := Option.isSome_iff_exists.mp hc
    simp only [call, hb, Bool.false_eq_true, if_false, hcode]
  · intro hb hc hrev
    obtain ⟨c, hcode⟩ := Option.isSome_iff_exists.mp hc
    simp only [call, hb, Bool.false_eq_true, if_false, hcode] at hrev ⊢
    rw [enact_result_ite, hrev, if_pos rfl, callEntryState_snapshots]
    rfl
  · rfl
  · intro hrev
    simp only [create] at hrev ⊢
    rw [enact_result_ite, hrev, if_pos rfl, createEntryState_snapshots]
    rfl
  · intro hb hc hrev a
    obtain ⟨c, hcode⟩ := Option.isSome_iff_exists.mp hc
    have hst : (call eng vm depth params st substate).state = st := by
      simp only [call, hb, Bool.false_eq_true, if_false, hcode] at hrev ⊢
      rw [enact_result_ite, hrev, if_pos rfl, callEntryState_snapshots]
      rfl
    rw [hst]
    exact ⟨rfl, fun _ => rfl⟩

/-- Claim C8 witness: the failing VM smashes the destination's balance and
storage, yet after the reverted call the world state equals the original
one. -/
theorem value_transfer_atomicity_witness :
    (call eng0 vmSmash 0 paramsR st0 Substate.new).state = st0 :=
  (value_transfer_atomicity eng0 vmSmash 0 paramsR st0 Substate.new).2.1
    rfl rfl rfl

/-- Claim C9: `contract_address` is a pure function of the sender address
and the nonce — identical inputs yield the identical address, independent
of any world state — and its value is the hash of the two-element RLP list
of the sender and the nonce. -/
theorem contract_address_deterministic (hash : List Nat → Nat)
    (sender nonce sender' nonce' : Nat)
    (h1 : sender = sender') (h2 : nonce = nonce') :
    contract_address hash sender nonce = contract_address hash sender' nonce' ∧
    contract_address hash sender nonce =
      hash (rlpList2 (rlpAddressItem sender) (rlpNonceItem nonce)) := by
  subst h1
  subst h2
  exact ⟨rfl, rfl⟩

/-- Claim C9 witness: at concrete sender 3 and nonce 5 the two invocations
agree and equal the hash of the RLP pair. -/
theorem contract_address_deterministic_witness :
    contract_address hash0 3 5 = contract_address hash0 3 5 ∧
    contract_address hash0 3 5 =
      hash0 (rlpList2 (rlpAddressItem 3) (rlpNonceItem 5)) :=
  contract_address_deterministic hash0 3 5 3 5 rfl rfl

/-- The transaction of the claim C10 witness: gas 10 at price 2 with value
3, against a sender balance of 100. -/
def tW : SignedTransaction :=
  { sender := some 1, nonce := 0, gas := 10, gas_price := 2, value := 3,
    action := .Create, data := [] }

/-- The world state of the claim C10 witness. -/
def stW : WState :=
  ⟨setAccount (fun _ => Account.empty) 1 ⟨100, 0, none, fun _ => 0⟩, []⟩

/-- Claim C10: the gas prepayment is the exact 512-bit product
`gas * gas_price` narrowed to 256 bits; under the `NotEnoughCash` guard
(sender balance at least `value + gas * gas_price`) and the 256-bit bound
on the balance, the narrowing never truncates, so the prepayment step
debits exactly `gas * gas_price`. -/
theorem gas_prepayment_no_truncation (t : SignedTransaction) (st : WState)
    (sender : Nat) (hbal : st.balance sender < 2 ^ 256)
    (hguard : t.value + gasCost512 t ≤ st.balance sender) :
    u256narrow (gasCost512 t) = gasCost512 t ∧
    prepayState st sender (gasCost512 t) =
      (st.inc_nonce sender).sub_balance sender (gasCost512 t) := by
  have h : gasCost512 t < 2 ^ 256 :=
    lt_of_le_of_lt (le_trans (Nat.le_add_left _ _) hguard) hbal
  have hn : u256narrow (gasCost512 t) = gasCost512 t := Nat.mod_eq_of_lt h
  refine ⟨hn, ?_⟩
  rw [prepayState, hn]

/-- Claim C10 witness: at the concrete instance (gas 10, price 2, balance
100 ≥ 3 + 20) the narrowed prepayment is exactly 20. -/
theorem gas_prepayment_no_truncation_witness :
    u256narrow (gasCost512 tW) = gasCost512 tW :=
  (gas_prepayment_no_truncation tW stW 1 (by decide) (by decide)).1

end Parity
